import Mathlib

set_option maxHeartbeats 1000000

/-
Verification development for the perplexity sidecar gateway (app.py).

Python strings are modelled as lists of characters, matching Python's
code-point indexing, slicing and concatenation.  Module-level mutable
state (the cached client and its token hash) is modelled as an explicit
state record threaded through the functions that read or replace it, and
client objects are named by an allocation counter so that object
identity and the close() side effect are observable.  The producer
thread / consumer loop of the streaming endpoint communicate through a
queue of discrete events; the producer is modelled as the function from
the upstream snapshot sequence (and the outcome of the one non-streaming
retry) to the event list it enqueues, and the consumer as the function
from that event list to the SSE items it yields.
-/

/-- Python str, as a list of code points. -/
abbrev Str : Type := List Char

/-- A Lean string literal viewed as a Str. -/
def str (s : String) : Str := s.data

/-- token[:16] + token[-16:] from get_client, with Python slice semantics:
both slices are clamped to the whole string when it is shorter than 16. -/
def pyTokenHash (t : Str) : Str := t.take 16 ++ t.drop (t.length - 16)

/-- The module-level cache (_client, _client_token_hash).  Client objects
are named by an allocation counter (uid) so that identity is observable. -/
structure SessionStore where
  nextUid : Nat
  client : Option (Nat × Str)
  clientTokenHash : Str
deriving DecidableEq

/-- Observable outcome of one get_client call: the updated module state,
the uid of the returned client, whether the branch constructing a fresh
Perplexity client ran, and the uids close() was invoked on. -/
structure GetClientResult where
  state : SessionStore
  uid : Nat
  constructed : Bool
  closed : List Nat
deriving DecidableEq

/-- get_client (app.py lines 288-304), after the token has been obtained:
rebuild when no client exists or the token hash changed, closing the old
client first; otherwise return the cached client with the state unchanged. -/
def get_client (st : SessionStore) (token : Str) : GetClientResult :=
  match st.client with
  | none =>
    { state := { nextUid := st.nextUid + 1, client := some (st.nextUid, token),
                 clientTokenHash := pyTokenHash token },
      uid := st.nextUid, constructed := true, closed := [] }
  | some (uid, _) =>
    if pyTokenHash token ≠ st.clientTokenHash then
      { state := { nextUid := st.nextUid + 1, client := some (st.nextUid, token),
                   clientTokenHash := pyTokenHash token },
        uid := st.nextUid, constructed := true, closed := [uid] }
    else
      { state := st, uid := uid, constructed := false, closed := [] }

/-- Inputs to _get_session_token: the dashboard fetch result and the two
environment variables, with the JSON parse of PERPLEXITY_COOKIES
represented by its outcome (none models a JSONDecodeError). -/
structure Env where
  dashboardToken : Option Str
  envSessionToken : Str
  envCookiesRaw : Str
  envCookiesParsed : Option (List (Str × Str))
deriving DecidableEq

/-- Python truthiness of an optional string: None and the empty string
are both falsy. -/
def optTruthy : Option Str → Option Str
  | some t => if t = [] then none else some t
  | none => none

/-- Python str.strip(). -/
def pyStrip (s : Str) : Str :=
  ((s.dropWhile Char.isWhitespace).reverse.dropWhile Char.isWhitespace).reverse

/-- Python `a or b` on optional strings: the empty string is falsy. -/
def pyDictOr (a b : Option Str) : Option Str :=
  match a with
  | some s => if s = [] then b else some s
  | none => b

/-- Python dict.get for a cookie mapping. -/
def cookieLookup : List (Str × Str) → Str → Option Str
  | [], _ => none
  | (k, v) :: rest, name => if k = name then some v else cookieLookup rest name

def sessionCookieName : Str := str "__Secure-next-auth.session-token"

def legacyCookieName : Str := str "next-auth.session-token"

/-- The PERPLEXITY_SESSION_TOKEN branch of _get_session_token. -/
def envTokenCred (e : Env) : Option Str :=
  let tok := pyStrip e.envSessionToken
  if tok = [] then none else some tok

/-- The PERPLEXITY_COOKIES branch of _get_session_token: a JSON decode
error is swallowed and the branch yields nothing. -/
def envCookieCred (e : Env) : Option Str :=
  let raw := pyStrip e.envCookiesRaw
  if raw = [] then none
  else
    match e.envCookiesParsed with
    | some cookies =>
      match pyDictOr (cookieLookup cookies sessionCookieName)
          (cookieLookup cookies legacyCookieName) with
      | some t => if t = [] then none else some t
      | none => none
    | none => none

inductive ConfigError
  | noToken
deriving DecidableEq

/-- _get_session_token (app.py lines 261-285): dashboard first, then the
two env fallbacks, else the HTTP 500 configuration error.  The cached
client state is not consulted at all. -/
def getSessionToken (e : Env) : Except ConfigError Str :=
  match optTruthy e.dashboardToken with
  | some t => Except.ok t
  | none =>
    match envTokenCred e with
    | some t => Except.ok t
    | none =>
      match envCookieCred e with
      | some t => Except.ok t
      | none => Except.error ConfigError.noToken

/-- Token acquisition followed by get_client, as the chat endpoint runs it. -/
def get_client_full (e : Env) (st : SessionStore) : Except ConfigError GetClientResult :=
  match getSessionToken e with
  | Except.ok t => Except.ok (get_client st t)
  | Except.error c => Except.error c

def isConfigError : Except ConfigError GetClientResult → Bool
  | Except.error _ => true
  | Except.ok _ => false

/-- One element of a list-valued message content: a {type: text} block,
a bare string, or anything else (which is skipped). -/
inductive PyBlock
  | textBlock (t : Str)
  | strBlock (s : Str)
  | otherBlock
deriving DecidableEq

/-- Message content: a plain string or a list of blocks. -/
inductive PyContent
  | plain (s : Str)
  | blocks (bs : List PyBlock)
deriving DecidableEq

/-- An inbound message after dict.get defaulting (role defaults to
"user", content to the empty string). -/
structure PyMsg where
  role : Str
  content : PyContent
deriving DecidableEq

def blockText : PyBlock → Option Str
  | PyBlock.textBlock t => some t
  | PyBlock.strBlock s => some s
  | PyBlock.otherBlock => none

/-- The list-content flattening inside messages_to_query. -/
def flattenContent : PyContent → Str
  | PyContent.plain s => s
  | PyContent.blocks bs => List.intercalate (str "\n") (bs.filterMap blockText)

/-- The per-message block built by the loop body of messages_to_query. -/
def msgPart (m : PyMsg) : Str :=
  if m.role = str "system" then
    str "[System Instructions]\n" ++ flattenContent m.content ++ str "\n"
  else if m.role = str "assistant" then
    str "[Previous Assistant Response]\n" ++ flattenContent m.content ++ str "\n"
  else flattenContent m.content

/-- messages_to_query (app.py lines 312-331). -/
def messages_to_query (ms : List PyMsg) : Str :=
  List.intercalate (str "\n\n") (ms.map msgPart)

/-- Modelled from the spec: system messages become a
"[System Instructions]" block, assistant messages a
"[Previous Assistant Response]" block, user content passes through
verbatim; the spec covers no other roles, so they get no block text. -/
def specBlock (m : PyMsg) : Str :=
  if m.role = str "user" then flattenContent m.content
  else if m.role = str "system" then
    str "[System Instructions]\n" ++ flattenContent m.content ++ str "\n"
  else if m.role = str "assistant" then
    str "[Previous Assistant Response]\n" ++ flattenContent m.content ++ str "\n"
  else []

/-- Modelled from the spec: the blocks joined with blank-line separators
in original message order. -/
def specQuery (ms : List PyMsg) : Str :=
  List.intercalate (str "\n\n") (ms.map specBlock)

/-- Parsed request body fields used by chat_completions. -/
structure ReqBody where
  model : Option Str
  stream : Bool
  messages : List PyMsg

/-- Outcome of await request.json(). -/
inductive BodyParse
  | invalid
  | ok (b : ReqBody)

inductive HandlerError
  | badJson
  | noMessages
  | unknownModel
  | noToken
deriving DecidableEq

/-- Observable trace of one chat_completions call, up to the first
upstream ask: the HTTP outcome, the final module state, and how many
upstream asks were issued. -/
structure HandlerTrace where
  response : Except (Nat × HandlerError) Unit
  store : SessionStore
  upstreamAsks : Nat

/-- chat_completions (app.py lines 362-387): JSON parse, messages check,
model lookup, then token acquisition and client construction, in the
source order; every rejection happens before get_client and before any
upstream ask. -/
def chat_completions (registry : List Str) (e : Env) (st : SessionStore)
    (body : BodyParse) : HandlerTrace :=
  match body with
  | BodyParse.invalid =>
    { response := Except.error (400, HandlerError.badJson), store := st, upstreamAsks := 0 }
  | BodyParse.ok b =>
    if b.messages = [] then
      { response := Except.error (400, HandlerError.noMessages), store := st, upstreamAsks := 0 }
    else
      if b.model.getD (str "perplexity-auto") ∈ registry then
        match getSessionToken e with
        | Except.error _ =>
          { response := Except.error (500, HandlerError.noToken), store := st, upstreamAsks := 0 }
        | Except.ok token =>
          { response := Except.ok (), store := (get_client st token).state, upstreamAsks := 1 }
      else
        { response := Except.error (400, HandlerError.unknownModel), store := st, upstreamAsks := 0 }

/-- One iteration of the producer loop body (app.py lines 450-455):
emit current[len(last):] when the snapshot is strictly longer than the
previously emitted cumulative answer, else emit nothing; the second
component is the updated `last`. -/
def produceStep (last current : Str) : Option Str × Str :=
  if last.length < current.length then (some (current.drop last.length), current)
  else (none, last)

/-- The producer loop over a snapshot sequence: the deltas enqueued and
the final value of `last`. -/
def runDeltas : List Str → Str → List Str × Str
  | [], last => ([], last)
  | c :: rest, last =>
    if last.length < c.length then
      (c.drop last.length :: (runDeltas rest c).1, (runDeltas rest c).2)
    else runDeltas rest last

/-- One queue event of the producer/consumer channel. -/
inductive QEvent
  | delta (s : Str)
  | done
  | error (msg : Str)
deriving DecidableEq

/-- One run of the upstream streaming iteration: the snapshots yielded
(each resp.answer or ""), and the exception message if iterating raised
after those snapshots. -/
structure StreamRun where
  snaps : List Str
  streamExc : Option Str
deriving DecidableEq

/-- Python `str(e2) or str(e)`. -/
def pyStrOr (a b : Str) : Str := if a = [] then b else a

/-- The producer thread (app.py lines 447-469) as the event list it
enqueues plus the number of non-streaming retry asks it issues.  On a
clean iteration: the deltas then done.  On an exception: one retry; if
the retry succeeds, its answer is diffed against `last` and done is
enqueued; if the retry raises too, a single error event ends the list. -/
def producerRun (run : StreamRun) (retry : Except Str Str) : List QEvent × Nat :=
  let p := runDeltas run.snaps []
  let deltaEvents := p.1.map QEvent.delta
  match run.streamExc with
  | none => (deltaEvents ++ [QEvent.done], 0)
  | some e =>
    match retry with
    | Except.ok a =>
      if p.2.length < a.length then
        (deltaEvents ++ [QEvent.delta (a.drop p.2.length), QEvent.done], 1)
      else (deltaEvents ++ [QEvent.done], 1)
    | Except.error e2 => (deltaEvents ++ [QEvent.error (pyStrOr e2 e)], 1)

/-- The delta object of one emitted chunk: its role field, content field
and finish_reason, mirroring the JSON dicts built in _stream_response. -/
structure ChunkMsg where
  role : Option Str
  content : Option Str
  finishReason : Option Str
deriving DecidableEq

/-- The role-initialising chunk: delta {role: assistant, content: ""}. -/
def initChunk : ChunkMsg :=
  { role := some (str "assistant"), content := some [], finishReason := none }

/-- A content-delta chunk: delta {content: payload}. -/
def contentChunk (s : Str) : ChunkMsg :=
  { role := none, content := some s, finishReason := none }

/-- The inline error chunk: empty delta, finish_reason "error". -/
def errChunk : ChunkMsg :=
  { role := none, content := none, finishReason := some (str "error") }

/-- The terminal chunk: empty delta, finish_reason "stop". -/
def stopChunk : ChunkMsg :=
  { role := none, content := none, finishReason := some (str "stop") }

/-- One SSE item yielded by _stream_response: a data: json chunk or the
literal data: [DONE] sentinel. -/
inductive OutItem
  | chunk (c : ChunkMsg)
  | doneSentinel
deriving DecidableEq

/-- The consumer while-loop of _stream_response (app.py lines 488-513):
delta events yield content chunks, an error event yields the error chunk
and breaks, done breaks. -/
def consumeLoop : List QEvent → List OutItem
  | [] => []
  | QEvent.delta s :: rest => OutItem.chunk (contentChunk s) :: consumeLoop rest
  | QEvent.error _ :: _ => [OutItem.chunk errChunk]
  | QEvent.done :: _ => []

/-- _stream_response (app.py lines 486-523): the role-init chunk, then
the consumer loop output, then the stop chunk and the [DONE] sentinel,
which are yielded after the loop on every path. -/
def streamResponse (events : List QEvent) : List OutItem :=
  OutItem.chunk initChunk :: (consumeLoop events ++ [OutItem.chunk stopChunk, OutItem.doneSentinel])

/-- The content delta carried by an SSE item, if it is a content chunk. -/
def contentDeltaOf : OutItem → Option Str
  | OutItem.chunk c =>
    match c.role, c.finishReason with
    | none, none => c.content
    | _, _ => none
  | OutItem.doneSentinel => none

/-- Concatenation of all content deltas of a response. -/
def streamedContent (out : List OutItem) : Str :=
  (out.filterMap contentDeltaOf).flatten

def isErrorEvent : QEvent → Bool
  | QEvent.error _ => true
  | _ => false

/-- An environment in which the dashboard yields nothing and no env
credential is configured. -/
def emptyEnv : Env :=
  { dashboardToken := none, envSessionToken := [], envCookiesRaw := [],
    envCookiesParsed := none }

/-- An empty module state: no cached client yet. -/
def emptyStore : SessionStore :=
  { nextUid := 0, client := none, clientTokenHash := [] }

/-- A module state holding a previously-cached client (uid 0). -/
def cachedStore : SessionStore :=
  { nextUid := 1, client := some (0, str "cachedtok"),
    clientTokenHash := pyTokenHash (str "cachedtok") }

/-! Helper lemmas. -/

theorem getLastD_of_ne : ∀ (l : List Str) (h : l ≠ []) (d : Str), l.getLastD d = l.getLast h := by
  intro l
  induction l with
  | nil => intro h _; exact absurd rfl h
  | cons a t ih =>
    intro h d
    cases t with
    | nil => rfl
    | cons b t2 =>
      rw [List.getLastD_cons, ih (List.cons_ne_nil b t2) a]
      rfl

theorem runDeltas_join : ∀ (snaps : List Str) (last : Str),
    List.Chain' (fun a b => a <+: b) (last :: snaps) →
    last ++ (runDeltas snaps last).1.flatten = snaps.getLastD last := by
  intro snaps
  induction snaps with
  | nil => intro last _; simp [runDeltas]
  | cons c rest ih =>
    intro last h
    rw [List.chain'_cons] at h
    obtain ⟨hpre, hrest⟩ := h
    rw [List.getLastD_cons]
    by_cases hlen : last.length < c.length
    · simp only [runDeltas, if_pos hlen]
      rw [List.flatten_cons, ← List.append_assoc]
      obtain ⟨t, rfl⟩ := hpre
      rw [List.drop_left]
      exact ih (last ++ t) hrest
    · have hle : c.length ≤ last.length := Nat.le_of_not_lt hlen
      have heq : last = c := hpre.eq_of_length (Nat.le_antisymm hpre.length_le hle)
      subst heq
      simp only [runDeltas, if_neg hlen]
      exact ih last hrest

theorem consumeLoop_map_delta (ds : List Str) (rest : List QEvent) :
    consumeLoop (ds.map QEvent.delta ++ rest)
      = ds.map (fun s => OutItem.chunk (contentChunk s)) ++ consumeLoop rest := by
  induction ds with
  | nil => simp
  | cons a t ih => simp [consumeLoop, ih]

theorem consumeLoop_forms : ∀ (evs : List QEvent), ∀ x ∈ consumeLoop evs,
    (∃ s, x = OutItem.chunk (contentChunk s)) ∨ x = OutItem.chunk errChunk := by
  intro evs
  induction evs with
  | nil => intro x hx; simp [consumeLoop] at hx
  | cons ev rest ih =>
    intro x hx
    cases ev with
    | delta s =>
      simp only [consumeLoop, List.mem_cons] at hx
      rcases hx with h | h
      · exact Or.inl ⟨s, h⟩
      · exact ih x h
    | done => simp [consumeLoop] at hx
    | error m =>
      simp only [consumeLoop, List.mem_singleton] at hx
      exact Or.inr hx

theorem init_not_in_consume (evs : List QEvent) :
    OutItem.chunk initChunk ∉ consumeLoop evs := by
  intro hmem
  rcases consumeLoop_forms evs _ hmem with ⟨s, hs⟩ | hs
  · simp [initChunk, contentChunk] at hs
  · simp [initChunk, errChunk] at hs

theorem stop_not_in_consume (evs : List QEvent) :
    OutItem.chunk stopChunk ∉ consumeLoop evs := by
  intro hmem
  rcases consumeLoop_forms evs _ hmem with ⟨s, hs⟩ | hs
  · simp [stopChunk, contentChunk] at hs
  · exact absurd hs (by decide)

theorem sentinel_not_in_consume (evs : List QEvent) :
    OutItem.doneSentinel ∉ consumeLoop evs := by
  intro hmem
  rcases consumeLoop_forms evs _ hmem with ⟨s, hs⟩ | hs
  · simp at hs
  · simp at hs

theorem filterMap_content (ds : List Str) :
    ((ds.map (fun s => OutItem.chunk (contentChunk s))).filterMap contentDeltaOf) = ds := by
  induction ds with
  | nil => rfl
  | cons a t ih =>
    rw [List.map_cons,
      List.filterMap_cons_some
        (show contentDeltaOf (OutItem.chunk (contentChunk a)) = some a from rfl), ih]

theorem streamedContent_of_deltas (ds : List Str) (rest : List QEvent)
    (hrest : consumeLoop rest = []) :
    streamedContent (streamResponse (ds.map QEvent.delta ++ rest)) = ds.flatten := by
  rw [streamResponse, consumeLoop_map_delta, hrest, List.append_nil]
  unfold streamedContent
  rw [List.filterMap_cons_none
      (show contentDeltaOf (OutItem.chunk initChunk) = none from rfl),
    List.filterMap_append, filterMap_content]
  have h2 : List.filterMap contentDeltaOf [OutItem.chunk stopChunk, OutItem.doneSentinel] = [] := rfl
  rw [h2, List.append_nil]

/-! Claim theorems. -/

/-- C1, as stated, is false on the code: for the previously emitted
cumulative answer "Hello" and the non-monotonic later snapshot "Bye"
(non-empty, different, and not an extension of "Hello"), the producer
emits nothing at all — the event stream for the snapshots
["Hello", "Bye"] is just the delta for "Hello" followed by done, and no
delta equal to the full snapshot "Bye" is ever emitted. -/
theorem C1_counterexample :
    (str "Bye" ≠ [] ∧ str "Bye" ≠ str "Hello" ∧ ¬ (str "Hello") <+: (str "Bye")) ∧
    (produceStep (str "Hello") (str "Bye")).1 = none ∧
    (producerRun { snaps := [str "Hello", str "Bye"], streamExc := none }
        (Except.error [])).1 = [QEvent.delta (str "Hello"), QEvent.done] ∧
    QEvent.delta (str "Bye") ∉
      (producerRun { snaps := [str "Hello", str "Bye"], streamExc := none }
        (Except.error [])).1 := by
  exact ⟨⟨by decide, by decide, by decide⟩, by decide, by decide, by decide⟩

/-- C1 amended: on a non-monotonic snapshot the translator never emits
the entire later snapshot.  If the snapshot is strictly longer than the
previously emitted cumulative answer, only the suffix beyond the
previous answer's length is emitted (which need not be a part of any
true answer); otherwise nothing is emitted and the snapshot's content
is dropped. -/
theorem C1_amended (last current : Str)
    (h1 : current ≠ []) (h2 : current ≠ last) (h3 : ¬ last <+: current) :
    ((produceStep last current).1 =
      if last.length < current.length then some (current.drop last.length) else none) ∧
    (∀ d, (produceStep last current).1 = some d → d ≠ current) := by
  constructor
  · by_cases hlen : last.length < current.length
    · rw [produceStep, if_pos hlen, if_pos hlen]
    · rw [produceStep, if_neg hlen, if_neg hlen]
  · intro d hd hdc
    have hlast : last ≠ [] := by
      intro hl
      exact h3 (hl ▸ ⟨current, rfl⟩)
    rw [produceStep] at hd
    by_cases hlen : last.length < current.length
    · rw [if_pos hlen] at hd
      have hdrop : d = current.drop last.length := by
        injection hd with h
        exact h.symm
      have hlenlast : 0 < last.length := List.length_pos.mpr hlast
      have : d.length = current.length - last.length := by rw [hdrop, List.length_drop]
      rw [hdc] at this
      omega
    · rw [if_neg hlen] at hd
      exact Option.noConfusion hd

/-- Witness for C1_amended at last = "Hello", current = "Goodbye": the
emitted delta is "ye", not the full snapshot "Goodbye". -/
theorem C1_witness :
    (produceStep (str "Hello") (str "Goodbye")).1 = some (str "ye") ∧
    str "ye" ≠ str "Goodbye" :=
  ⟨by decide,
   (C1_amended (str "Hello") (str "Goodbye") (by decide) (by decide)
      (by decide)).2 (str "ye") (by decide)⟩

/-- C2: for a prefix-monotone sequence of cumulative answer snapshots,
the concatenation of all content deltas of the streaming response equals
the final snapshot exactly. -/
theorem C2_deltas_concat (snaps : List Str) (retry : Except Str Str) (hne : snaps ≠ [])
    (hchain : List.Chain' (fun a b => a <+: b) snaps) :
    streamedContent (streamResponse
        (producerRun { snaps := snaps, streamExc := none } retry).1)
      = snaps.getLast hne := by
  have hjoin : [] ++ (runDeltas snaps []).1.flatten = snaps.getLastD [] := by
    apply runDeltas_join
    cases snaps with
    | nil => exact absurd rfl hne
    | cons a t => exact List.chain'_cons.mpr ⟨⟨a, rfl⟩, hchain⟩
  rw [List.nil_append] at hjoin
  have hcl : consumeLoop [QEvent.done] = [] := rfl
  have hsc := streamedContent_of_deltas (runDeltas snaps []).1 [QEvent.done] hcl
  have hpr : (producerRun { snaps := snaps, streamExc := none } retry).1
      = ((runDeltas snaps []).1.map QEvent.delta) ++ [QEvent.done] := rfl
  rw [hpr, hsc, hjoin, getLastD_of_ne snaps hne []]

/-- Witness for C2 at the spec's example: snapshots "Hel", "Hello" give
concatenated content "Hello". -/
theorem C2_witness :
    streamedContent (streamResponse
        (producerRun { snaps := [str "Hel", str "Hello"], streamExc := none }
          (Except.error [])).1)
      = str "Hello" := by
  have hchain : List.Chain' (fun a b => a <+: b) [str "Hel", str "Hello"] :=
    List.chain'_cons.mpr ⟨⟨str "lo", by decide⟩, List.chain'_singleton _⟩
  have h := C2_deltas_concat [str "Hel", str "Hello"] (Except.error []) (by decide) hchain
  exact h.trans (by decide)

/-- C3: every streaming response begins with exactly one
role-initialising chunk (role assistant, empty content) and, for every
producer outcome including producer-side errors, ends with the terminal
chunk with finish_reason "stop" followed by the [DONE] sentinel, each
occurring exactly once. -/
theorem C3_terminal_markers (run : StreamRun) (retry : Except Str Str) :
    (streamResponse (producerRun run retry).1).head? = some (OutItem.chunk initChunk) ∧
    initChunk.role = some (str "assistant") ∧ initChunk.content = some [] ∧
    (streamResponse (producerRun run retry).1).count (OutItem.chunk initChunk) = 1 ∧
    (streamResponse (producerRun run retry).1).count (OutItem.chunk stopChunk) = 1 ∧
    (streamResponse (producerRun run retry).1).count OutItem.doneSentinel = 1 ∧
    ∃ pre, streamResponse (producerRun run retry).1
      = pre ++ [OutItem.chunk stopChunk, OutItem.doneSentinel] := by
  refine ⟨rfl, rfl, rfl, ?_, ?_, ?_,
    ⟨OutItem.chunk initChunk :: consumeLoop (producerRun run retry).1, by
      rw [streamResponse]; rfl⟩⟩
  · rw [streamResponse, List.count_cons, List.count_append,
      List.count_eq_zero.mpr (init_not_in_consume (producerRun run retry).1)]
    decide
  · rw [streamResponse, List.count_cons, List.count_append,
      List.count_eq_zero.mpr (stop_not_in_consume (producerRun run retry).1)]
    decide
  · rw [streamResponse, List.count_cons, List.count_append,
      List.count_eq_zero.mpr (sentinel_not_in_consume (producerRun run retry).1)]
    decide

/-- C4, as stated, is false on the code: with the dashboard yielding no
credential and no static env credential configured, the gateway raises
the configuration error even though a previously-cached Session exists —
_get_session_token never falls back to the cached Session. -/
theorem C4_counterexample :
    cachedStore.client.isSome = true ∧
    isConfigError (get_client_full emptyEnv cachedStore) = true := by decide

/-- C4 amended: when the provider yields no credential the gateway falls
back only to the statically configured credentials (env session token,
then env cookie JSON); a previously-cached Session is never consulted.
If no static credential yields a usable token, the request fails with a
configuration error (HTTP 500) before any upstream call and with the
module state unchanged — even when a cached Session exists, for any
cached state whatsoever. -/
theorem C4_amended (registry : List Str) (e : Env) (st : SessionStore) (b : ReqBody)
    (hmsg : b.messages ≠ [])
    (hmodel : b.model.getD (str "perplexity-auto") ∈ registry)
    (hdash : optTruthy e.dashboardToken = none)
    (htok : envTokenCred e = none)
    (hcookie : envCookieCred e = none) :
    getSessionToken e = Except.error ConfigError.noToken ∧
    chat_completions registry e st (BodyParse.ok b) =
      { response := Except.error (500, HandlerError.noToken), store := st,
        upstreamAsks := 0 } := by
  have htoken : getSessionToken e = Except.error ConfigError.noToken := by
    simp only [getSessionToken, hdash, htok, hcookie]
  refine ⟨htoken, ?_⟩
  simp only [chat_completions, if_neg hmsg, if_pos hmodel, htoken]

/-- Witness for C4_amended: a valid request against an empty provider
and env, with a cached Session present, yields the 500 configuration
error with zero upstream asks. -/
theorem C4_witness :
    chat_completions [str "perplexity-auto"] emptyEnv cachedStore
        (BodyParse.ok
          { model := none
            stream := false
            messages := [{ role := str "user", content := PyContent.plain (str "hi") }] })
      = { response := Except.error (500, HandlerError.noToken)
          store := cachedStore
          upstreamAsks := 0 } :=
  (C4_amended [str "perplexity-auto"] emptyEnv cachedStore
    { model := none
      stream := false
      messages := [{ role := str "user", content := PyContent.plain (str "hi") }] }
    (by decide) (by decide) (by decide) (by decide) (by decide)).2

/-- C5, as stated, is false on the code: when the token hash changes
between two calls, the replacement closes the prior client — after
building the client for "alpha" and then calling with "bravo", the
closed list of the second call contains exactly the first client's uid. -/
theorem C5_counterexample :
    pyTokenHash (str "alpha") ≠ pyTokenHash (str "bravo") ∧
    (get_client (get_client emptyStore (str "alpha")).state (str "bravo")).closed
      = [(get_client emptyStore (str "alpha")).uid] := by decide

/-- C5 amended: when the credential hash changes, the replacement call
constructs a fresh Session and explicitly closes the prior instance
(close errors are suppressed); an in-flight request's reference still
denotes that same, now-closed prior instance — the new Session is a
distinct object and the reference itself is not redirected. -/
theorem C5_amended (st : SessionStore) (token tok : Str) (uid : Nat)
    (hc : st.client = some (uid, tok))
    (hh : pyTokenHash token ≠ st.clientTokenHash) :
    (get_client st token).closed = [uid] ∧
    (get_client st token).constructed = true ∧
    (get_client st token).state.client = some (st.nextUid, token) ∧
    (get_client st token).uid = st.nextUid := by
  simp only [get_client, hc]
  rw [if_pos hh]
  exact ⟨rfl, rfl, rfl, rfl⟩

/-- Witness for C5_amended: replacing the cached client (uid 0) with one
for a new token closes uid 0 and installs the fresh uid 1. -/
theorem C5_witness :
    (get_client cachedStore (str "newtok")).closed = [0] ∧
    (get_client cachedStore (str "newtok")).constructed = true ∧
    (get_client cachedStore (str "newtok")).state.client = some (1, str "newtok") ∧
    (get_client cachedStore (str "newtok")).uid = 1 :=
  C5_amended cachedStore (str "newtok") (str "cachedtok") 0 rfl (by decide)

/-- C6: a new Session is constructed exactly when no Session exists or
the current token's identity hash differs from the cached one; otherwise
the call returns the cached client with the module state unchanged. -/
theorem C6_session_rebuild_iff (st : SessionStore) (token : Str) :
    ((get_client st token).constructed = true ↔
      st.client = none ∨ pyTokenHash token ≠ st.clientTokenHash) ∧
    (∀ uid tok, st.client = some (uid, tok) →
      pyTokenHash token = st.clientTokenHash →
      get_client st token = { state := st, uid := uid, constructed := false, closed := [] }) := by
  constructor
  · cases hcl : st.client with
    | none =>
      simp only [get_client, hcl]
      simp
    | some p =>
      obtain ⟨uid, tok⟩ := p
      simp only [get_client, hcl]
      by_cases hh : pyTokenHash token ≠ st.clientTokenHash
      · rw [if_pos hh]
        simp [hh]
      · rw [if_neg hh]
        simp [hh]
  · intro uid tok hc hh
    simp only [get_client, hc]
    rw [if_neg (not_not_intro hh)]

/-- Witness for C6: calling again with the cached token reuses the
cached client, leaving the state untouched. -/
theorem C6_witness :
    get_client cachedStore (str "cachedtok")
      = { state := cachedStore, uid := 0, constructed := false, closed := [] } :=
  (C6_session_rebuild_iff cachedStore (str "cachedtok")).2 0 (str "cachedtok") rfl rfl

theorem get_client_state_spec (st : SessionStore) (t : Str) :
    (get_client st t).state.clientTokenHash = pyTokenHash t ∧
    ∃ tok, (get_client st t).state.client = some ((get_client st t).uid, tok) := by
  cases hcl : st.client with
  | none =>
    refine ⟨?_, t, ?_⟩ <;> simp [get_client, hcl]
  | some p =>
    obtain ⟨uid, tok⟩ := p
    by_cases hh : pyTokenHash t ≠ st.clientTokenHash
    · refine ⟨?_, t, ?_⟩ <;> simp [get_client, hcl, hh]
    · have heq : pyTokenHash t = st.clientTokenHash := not_ne_iff.mp hh
      refine ⟨?_, tok, ?_⟩ <;> simp [get_client, hcl, heq]

/-- C10: two distinct tokens that agree on their first 16 and last 16
characters get the same identity hash, so a call with the second token
reuses the client built for the first instead of rebuilding. -/
theorem C10_hash_collision_reuse (t1 t2 : Str) (st : SessionStore) (hne : t1 ≠ t2)
    (h1 : t1.take 16 = t2.take 16)
    (h2 : t1.drop (t1.length - 16) = t2.drop (t2.length - 16)) :
    pyTokenHash t1 = pyTokenHash t2 ∧
    get_client (get_client st t1).state t2
      = { state := (get_client st t1).state, uid := (get_client st t1).uid,
          constructed := false, closed := [] } := by
  have hhash : pyTokenHash t1 = pyTokenHash t2 := by
    rw [pyTokenHash, pyTokenHash, h1, h2]
  refine ⟨hhash, ?_⟩
  obtain ⟨hsh, tok, hcl⟩ := get_client_state_spec st t1
  revert hsh hcl
  generalize get_client st t1 = r
  intro hsh hcl
  have hh2 : pyTokenHash t2 = r.state.clientTokenHash := by
    rw [hsh]
    exact hhash.symm
  simp only [get_client, hcl]
  rw [if_neg (not_not_intro hh2)]

/-- Witness for C10: two distinct 33- and 34-character tokens sharing
their first and last 16 characters hash identically. -/
theorem C10_witness :
    pyTokenHash (str "aaaaaaaaaaaaaaaaXbbbbbbbbbbbbbbbb")
      = pyTokenHash (str "aaaaaaaaaaaaaaaaYZbbbbbbbbbbbbbbbb") :=
  (C10_hash_collision_reuse (str "aaaaaaaaaaaaaaaaXbbbbbbbbbbbbbbbb")
    (str "aaaaaaaaaaaaaaaaYZbbbbbbbbbbbbbbbb") emptyStore
    (by decide) (by decide) (by decide)).1

/-- C7: for messages whose roles are among system, user and assistant,
the flattened query is exactly the spec's blocks — system and assistant
messages with their header blocks, user content verbatim — joined with
blank-line separators in original order. -/
theorem C7_flatten_matches_spec (ms : List PyMsg)
    (hroles : ∀ m ∈ ms, m.role = str "system" ∨ m.role = str "user" ∨
      m.role = str "assistant") :
    messages_to_query ms = specQuery ms := by
  unfold messages_to_query specQuery
  congr 1
  apply List.map_congr_left
  intro m hm
  rcases hroles m hm with h | h | h
  · simp only [msgPart, specBlock, h, if_true]
    rw [if_neg (show str "system" ≠ str "user" by decide)]
  · simp only [msgPart, specBlock, h, if_true]
    rw [if_neg (show str "user" ≠ str "system" by decide),
      if_neg (show str "user" ≠ str "assistant" by decide)]
  · simp only [msgPart, specBlock, h, if_true]
    rw [if_neg (show str "assistant" ≠ str "system" by decide),
      if_neg (show str "assistant" ≠ str "user" by decide)]

/-- Witness for C7 on a two-message conversation. -/
theorem C7_witness :
    messages_to_query
        [{ role := str "system", content := PyContent.plain (str "be brief") },
         { role := str "user", content := PyContent.plain (str "hi") }]
      = specQuery
        [{ role := str "system", content := PyContent.plain (str "be brief") },
         { role := str "user", content := PyContent.plain (str "hi") }] :=
  C7_flatten_matches_spec
    [{ role := str "system", content := PyContent.plain (str "be brief") },
     { role := str "user", content := PyContent.plain (str "hi") }] (by decide)

/-- C8: a request with an invalid JSON body, a missing or empty messages
list, or a model key outside the registry is rejected with a 400 client
error, with the module state unchanged (no Session constructed) and zero
upstream asks. -/
theorem C8_reject_before_upstream (registry : List Str) (e : Env) (st : SessionStore)
    (body : BodyParse) :
    (body = BodyParse.invalid →
      chat_completions registry e st body =
        { response := Except.error (400, HandlerError.badJson), store := st,
          upstreamAsks := 0 }) ∧
    (∀ b, body = BodyParse.ok b → b.messages = [] →
      chat_completions registry e st body =
        { response := Except.error (400, HandlerError.noMessages), store := st,
          upstreamAsks := 0 }) ∧
    (∀ b m, body = BodyParse.ok b → b.messages ≠ [] → b.model = some m → m ∉ registry →
      chat_completions registry e st body =
        { response := Except.error (400, HandlerError.unknownModel), store := st,
          upstreamAsks := 0 }) := by
  refine ⟨?_, ?_, ?_⟩
  · intro h
    subst h
    rfl
  · intro b h hm
    subst h
    simp [chat_completions, hm]
  · intro b m h hm hmod hreg
    subst h
    have hgd : b.model.getD (str "perplexity-auto") = m := by rw [hmod]; rfl
    simp [chat_completions, hm, hgd, hreg]

/-- Witness for C8: an invalid JSON body is rejected as a 400 with the
state untouched. -/
theorem C8_witness :
    chat_completions [] emptyEnv emptyStore BodyParse.invalid
      = { response := Except.error (400, HandlerError.badJson)
          store := emptyStore
          upstreamAsks := 0 } :=
  (C8_reject_before_upstream [] emptyEnv emptyStore BodyParse.invalid).1 rfl

theorem countP_error_map_delta (ds : List Str) :
    (ds.map QEvent.delta).countP isErrorEvent = 0 := by
  induction ds with
  | nil => rfl
  | cons a t ih => simp [List.countP_cons, isErrorEvent, ih]

theorem producerRun_retry_le (run : StreamRun) (retry : Except Str Str) :
    (producerRun run retry).2 ≤ 1 := by
  obtain ⟨snaps, exc⟩ := run
  cases exc with
  | none => simp [producerRun]
  | some e =>
    cases retry with
    | ok a =>
      simp only [producerRun]
      split <;> simp
    | error e2 => simp [producerRun]

/-- C9: when iterating the live stream raises, exactly one non-streaming
retry is issued and never more than one on any path; if the retry
succeeds the event stream still ends with done and carries no error
event, and if the retry fails exactly one terminal error event is
emitted, as the last event. -/
theorem C9_single_retry (run : StreamRun) (retry : Except Str Str) (e : Str)
    (hexc : run.streamExc = some e) :
    (producerRun run retry).2 = 1 ∧
    (∀ r2 rt2, (producerRun r2 rt2).2 ≤ 1) ∧
    (∀ a, retry = Except.ok a →
      (∃ pre, (producerRun run retry).1 = pre ++ [QEvent.done]) ∧
      (producerRun run retry).1.countP isErrorEvent = 0) ∧
    (∀ m, retry = Except.error m →
      (∃ pre, (producerRun run retry).1 = pre ++ [QEvent.error (pyStrOr m e)]) ∧
      (producerRun run retry).1.countP isErrorEvent = 1) := by
  refine ⟨?_, fun r2 rt2 => producerRun_retry_le r2 rt2, ?_, ?_⟩
  · cases retry with
    | ok a =>
      simp only [producerRun, hexc]
      split <;> rfl
    | error e2 =>
      simp [producerRun, hexc]
  · intro a ha
    subst ha
    constructor
    · simp only [producerRun, hexc]
      split
      · exact ⟨(runDeltas run.snaps []).1.map QEvent.delta
          ++ [QEvent.delta (a.drop (runDeltas run.snaps []).2.length)], by simp⟩
      · exact ⟨(runDeltas run.snaps []).1.map QEvent.delta, rfl⟩
    · simp only [producerRun, hexc]
      split <;>
        simp [List.countP_append, List.countP_cons, countP_error_map_delta, isErrorEvent]
  · intro m hm
    subst hm
    constructor
    · simp only [producerRun, hexc]
      exact ⟨(runDeltas run.snaps []).1.map QEvent.delta, rfl⟩
    · simp only [producerRun, hexc]
      simp [List.countP_append, List.countP_cons, countP_error_map_delta, isErrorEvent]

/-- Witness for C9: a stream that raises after one snapshot, with a
failing retry, issues exactly one retry. -/
theorem C9_witness :
    (producerRun { snaps := [str "Hel"], streamExc := some (str "boom") }
        (Except.error [])).2 = 1 :=
  (C9_single_retry { snaps := [str "Hel"], streamExc := some (str "boom") }
    (Except.error []) (str "boom") rfl).1
